import Mathlib

/-!
Shallow embedding of the authentication router of this repository
(src/backend/apps/web/routers/auths.py) and proofs about it.

The router's handlers are embedded as pure Lean functions over an explicit
application state.  External collaborators that the spec declares as such
(password hasher, email-format validator, webhook delivery, token issuer,
random key/password generation) are passed in as parameters or modelled from
the spec, as are the Credential Store operations (apps/web/models/users.py and
apps/web/models/auths.py are not part of the provided sources; the spec defines
their interface: lookup-by-email, lookup-by-id, insert, update-fields, count).

Python strings are Lean `String`s; `str.lower()` is `strLower` below (exact
for ASCII input); Python `None`-able values are `Option`; Python truthiness of
strings (`if s:`) is non-emptiness.
-/

deriving instance DecidableEq for Except

/-- Python truthiness of an optional string (for example the
WEBUI_AUTH_TRUSTED_EMAIL_HEADER config value): `None` and `""` are falsy. -/
def truthyOptStr : Option String → Bool
  | some s => !s.isEmpty
  | none => false

/-- Python truthiness of a string: `""` is falsy. -/
def truthyStr (s : String) : Bool := !s.isEmpty

/-- Python `str.lower()`: lowercase each character (`Char.toLower`, which maps
exactly the ASCII letters A-Z, as all emails considered here are ASCII). -/
def strLower (s : String) : String := ⟨s.data.map Char.toLower⟩

/-- A record of the user table.  Fields as the spec's data model:
id, email (stored lowercased), password hash, name, role, profile image,
optional serialized SSO payload, optional API key. -/
structure User where
  id : String
  email : String
  password_hash : String
  name : String
  role : String
  profile_image_url : String
  extra_sso : Option String
  api_key : Option String
deriving Repr, DecidableEq

/-- The mutable application state the handlers read and write: the user table
plus the process-wide configuration values (request.app.state.* and the
WEBUI_AUTH_TRUSTED_EMAIL_HEADER config constant). -/
structure AppState where
  users : List User
  ENABLE_SIGNUP : Bool
  DEFAULT_USER_ROLE : String
  JWT_EXPIRES_IN : String
  WEBHOOK_URL : String
  WEBUI_AUTH_TRUSTED_EMAIL_HEADER : Option String
deriving Repr, DecidableEq

/-- The error taxonomy of the handlers (constants.ERROR_MESSAGES plus the
generic SSO-callback failure). -/
inductive AuthErr where
  | ACCESS_PROHIBITED
  | INVALID_EMAIL_FORMAT
  | EMAIL_TAKEN
  | CREATE_USER_ERROR
  | DEFAULT
  | INVALID_CRED
  | INVALID_PASSWORD
  | ACTION_PROHIBITED
  | CREATE_API_KEY_ERROR
  | API_KEY_NOT_FOUND
  | INVALID_TRUSTED_HEADER
  | SSO_CALLBACK_ERROR
deriving Repr, DecidableEq

/-- The session payload returned by every token-issuing endpoint. -/
structure SigninResponse where
  token : String
  token_type : String
  id : String
  email : String
  name : String
  role : String
  profile_image_url : String
  extra_sso : Option String
deriving Repr, DecidableEq

/-- SignupForm (apps/web/models/auths.py, not under src): email, password,
name, optional profile image (the handlers pass "/user.png" when they build
one themselves), optional extra_sso payload. -/
structure SignupForm where
  email : String
  password : String
  name : String
  profile_image_url : String := "/user.png"
  extra_sso : Option String := none
deriving Repr, DecidableEq

/-- SigninForm: email and password. -/
structure SigninForm where
  email : String
  password : String
deriving Repr, DecidableEq

/-- AddUserForm: like SignupForm but with an explicit role. -/
structure AddUserForm where
  email : String
  password : String
  name : String
  profile_image_url : String := "/user.png"
  role : String := "pending"
deriving Repr, DecidableEq

/-- UpdatePasswordForm: old and new password. -/
structure UpdatePasswordForm where
  password : String
  new_password : String
deriving Repr, DecidableEq

/-- UpdateJWTExpiresDurationForm: the requested duration string. -/
structure UpdateJWTExpiresDurationForm where
  duration : String
deriving Repr, DecidableEq

/-- Modelled from the spec: Credential Store lookup-by-email
(Users.get_user_by_email; apps/web/models/users.py is not under src).
Handlers lowercase the email before every store access, so lookup itself is an
exact match on the stored (lowercased) email. -/
def get_user_by_email (users : List User) (email : String) : Option User :=
  users.find? (fun u => u.email == email)

/-- Modelled from the spec: Credential Store lookup-by-id
(Users.get_user_by_id). -/
def get_user_by_id (users : List User) (id : String) : Option User :=
  users.find? (fun u => u.id == id)

/-- Modelled from the spec: Credential Store count (Users.get_num_users). -/
def get_num_users (users : List User) : Nat := users.length

/-- Modelled from the spec: Credential Store insert (Auths.insert_new_auth;
apps/web/models/auths.py is not under src).  Inserts a fresh record with the
given fields (id generation abstracted as a deterministic fresh string) and
returns the created record together with the new table. -/
def insert_new_auth (users : List User) (email password_hash name
    profile_image_url : String) (extra_sso : Option String) (role : String) :
    User × List User :=
  let u : User :=
    { id := "id-" ++ toString users.length, email := email,
      password_hash := password_hash, name := name, role := role,
      profile_image_url := profile_image_url, extra_sso := extra_sso,
      api_key := none }
  (u, users ++ [u])

/-- Modelled from the spec: authenticate(email, password)
(Auths.authenticate_user) — lookup by email, then verify the password against
the stored hash.  The one-way hasher is the parameter `hash`; verification is
equality of `hash password` with the stored hash. -/
def authenticate_user (hash : String → String) (users : List User)
    (email password : String) : Option User :=
  match get_user_by_email users email with
  | some u => if hash password == u.password_hash then some u else none
  | none => none

/-- Modelled from the spec: trusted-header authentication
(Auths.authenticate_user_by_trusted_header) — lookup by email with no password
check. -/
def authenticate_user_by_trusted_header (users : List User) (email : String) :
    Option User :=
  get_user_by_email users email

/-- Modelled from the spec: Credential Store update-fields restricted to the
password hash (Auths.update_user_password_by_id).  Returns success (the id was
present) and the new table. -/
def update_user_password_by_id (users : List User) (id hashed : String) :
    Bool × List User :=
  ((get_user_by_id users id).isSome,
   users.map (fun u => if u.id = id then { u with password_hash := hashed } else u))

/-- Modelled from the spec: Credential Store update-fields restricted to
extra_sso (the Users.update_user_by_id call of the SSO callback).  Returns the
updated record (when the id was present) and the new table. -/
def update_user_extra_sso_by_id (users : List User) (id sso : String) :
    Option User × List User :=
  let updated := users.map (fun u => if u.id = id then { u with extra_sso := some sso } else u)
  (get_user_by_id updated id, updated)

/-- Modelled from the spec: Credential Store update-fields restricted to the
role (Users.update_user_role_by_id).  Returns the updated record and the new
table. -/
def update_user_role_by_id (users : List User) (id role : String) :
    Option User × List User :=
  let updated := users.map (fun u => if u.id = id then { u with role := role } else u)
  (get_user_by_id updated id, updated)

/-- Modelled from the spec: Credential Store update-fields restricted to the
API key (Users.update_user_api_key_by_id); `key = none` clears it.  Returns
success (the id was present) and the new table. -/
def update_user_api_key_by_id (users : List User) (id : String)
    (key : Option String) : Bool × List User :=
  ((get_user_by_id users id).isSome,
   users.map (fun u => if u.id = id then { u with api_key := key } else u))

/-- Modelled from the spec: Users.get_user_api_key_by_id — the stored API key
of the user with that id, if any. -/
def get_user_api_key_by_id (users : List User) (id : String) : Option String :=
  match get_user_by_id users id with
  | some u => u.api_key
  | none => none

/-- Modelled from the spec: the Token Issuer (utils.utils.create_token, not
under src) mints an opaque token whose subject is the given user id; the
expiry argument does not affect which subject the token bears, so it is not
modelled. -/
def create_token (id : String) : String := "token-" ++ id

/-- The signup handler (src/backend/apps/web/routers/auths.py, lines 158-220).
`emailValid` abstracts utils.misc.validate_email_format (not under src);
`hash` abstracts utils.utils.get_password_hash; `webhook_delivered` is the
outcome of utils.webhook.post_webhook, modelled from the spec as best-effort
delivery that never raises (the webhook is fired only when WEBHOOK_URL is
truthy, and its outcome is discarded by the handler). -/
def signup (emailValid : String → Bool) (hash : String → String)
    (webhook_delivered : Bool) (st : AppState) (fd : SignupForm) :
    Except AuthErr SigninResponse × AppState :=
  if !st.ENABLE_SIGNUP then
    (Except.error AuthErr.ACCESS_PROHIBITED, st)
  else if !(emailValid (strLower fd.email)) then
    (Except.error AuthErr.INVALID_EMAIL_FORMAT, st)
  else if (get_user_by_email st.users (strLower fd.email)).isSome then
    (Except.error AuthErr.EMAIL_TAKEN, st)
  else
    let role := if get_num_users st.users = 0 then "admin" else st.DEFAULT_USER_ROLE
    let hashed := hash fd.password
    let ins := insert_new_auth st.users (strLower fd.email) hashed fd.name
      fd.profile_image_url fd.extra_sso role
    let user := ins.1
    let token := create_token user.id
    let _ := if truthyStr st.WEBHOOK_URL then webhook_delivered else true
    (Except.ok
      { token := token, token_type := "Bearer", id := user.id,
        email := user.email, name := user.name, role := user.role,
        profile_image_url := user.profile_image_url, extra_sso := some "" },
     { st with users := ins.2 })

/-- The signin handler (lines 115-150).  `headers` are the request headers;
`randPw` abstracts the random uuid password used when the trusted-header
branch auto-provisions a user.  In the non-trusted branch the handler
authenticates the lowercased form email against the store. -/
def signin (emailValid : String → Bool) (hash : String → String)
    (randPw : String) (st : AppState) (headers : List (String × String))
    (fd : SigninForm) : Except AuthErr SigninResponse × AppState :=
  if truthyOptStr st.WEBUI_AUTH_TRUSTED_EMAIL_HEADER then
    let hname := st.WEBUI_AUTH_TRUSTED_EMAIL_HEADER.getD ""
    match headers.find? (fun p => p.1 == hname) with
    | none => (Except.error AuthErr.INVALID_TRUSTED_HEADER, st)
    | some p =>
      let trusted_email := strLower p.2
      let step :=
        if (get_user_by_email st.users (strLower trusted_email)).isSome then
          (Except.ok (), st)
        else
          let s := signup emailValid hash true st
            { email := trusted_email, password := randPw, name := trusted_email }
          match s.1 with
          | Except.ok _ => (Except.ok (), s.2)
          | Except.error e => (Except.error e, s.2)
      match step.1 with
      | Except.error e => (Except.error e, step.2)
      | Except.ok _ =>
        match authenticate_user_by_trusted_header step.2.users trusted_email with
        | some user =>
          (Except.ok
            { token := create_token user.id, token_type := "Bearer",
              id := user.id, email := user.email, name := user.name,
              role := user.role, profile_image_url := user.profile_image_url,
              extra_sso := some "" }, step.2)
        | none => (Except.error AuthErr.INVALID_CRED, step.2)
  else
    match authenticate_user hash st.users (strLower fd.email) fd.password with
    | some user =>
      (Except.ok
        { token := create_token user.id, token_type := "Bearer",
          id := user.id, email := user.email, name := user.name,
          role := user.role, profile_image_url := user.profile_image_url,
          extra_sso := some "" }, st)
    | none => (Except.error AuthErr.INVALID_CRED, st)

/-- The update_password handler (lines 92-107).  Refuses outright when
trusted-header mode is active, otherwise re-authenticates the session user
with the old password before storing the hash of the new one. -/
def update_password (hash : String → String) (st : AppState)
    (session_user : Option User) (fd : UpdatePasswordForm) :
    Except AuthErr Bool × AppState :=
  if truthyOptStr st.WEBUI_AUTH_TRUSTED_EMAIL_HEADER then
    (Except.error AuthErr.ACTION_PROHIBITED, st)
  else
    match session_user with
    | some su =>
      match authenticate_user hash st.users su.email fd.password with
      | some user =>
        let upd := update_user_password_by_id st.users user.id (hash fd.new_password)
        (Except.ok upd.1, { st with users := upd.2 })
      | none => (Except.error AuthErr.INVALID_PASSWORD, st)
    | none => (Except.error AuthErr.INVALID_CRED, st)

/-- The add_user handler (lines 228-266): admin-only signup variant with an
explicit role, no first-user policy, no webhook (the admin gate itself is the
framework dependency get_admin_user and is outside the handler body). -/
def add_user (emailValid : String → Bool) (hash : String → String)
    (st : AppState) (fd : AddUserForm) :
    Except AuthErr SigninResponse × AppState :=
  if !(emailValid (strLower fd.email)) then
    (Except.error AuthErr.INVALID_EMAIL_FORMAT, st)
  else if (get_user_by_email st.users (strLower fd.email)).isSome then
    (Except.error AuthErr.EMAIL_TAKEN, st)
  else
    let hashed := hash fd.password
    let ins := insert_new_auth st.users (strLower fd.email) hashed fd.name
      fd.profile_image_url none fd.role
    let user := ins.1
    (Except.ok
      { token := create_token user.id, token_type := "Bearer", id := user.id,
        email := user.email, name := user.name, role := user.role,
        profile_image_url := user.profile_image_url, extra_sso := some "" },
     { st with users := ins.2 })

/-! The duration pattern of update_token_expires_duration (line 328):
`^(-1|0|(-?\d+(\.\d+)?)(ms|s|m|h|d|w))$`, decided as in Python's re.match on
ASCII input (`$` also matches just before one trailing newline). -/

/-- `\d+` (one or more ASCII digits). -/
def digitsPlus (cs : List Char) : Bool := !cs.isEmpty && cs.all Char.isDigit

/-- `\d+(\.\d+)?`. -/
def fracNum (cs : List Char) : Bool :=
  match cs.span (fun c => c != '.') with
  | (pre, []) => digitsPlus pre
  | (pre, _ :: post) => digitsPlus pre && digitsPlus post

/-- `-?\d+(\.\d+)?`. -/
def signedNum : List Char → Bool
  | '-' :: rest => fracNum rest
  | cs => fracNum cs

/-- The unit alternatives `ms|s|m|h|d|w`. -/
def durationUnits : List (List Char) :=
  [['m', 's'], ['s'], ['m'], ['h'], ['d'], ['w']]

/-- `(-?\d+(\.\d+)?)(ms|s|m|h|d|w)`. -/
def numWithUnit (cs : List Char) : Bool :=
  durationUnits.any (fun u =>
    decide (u.length ≤ cs.length) &&
    cs.drop (cs.length - u.length) == u &&
    signedNum (cs.take (cs.length - u.length)))

/-- The full alternation `-1|0|(-?\d+(\.\d+)?)(ms|s|m|h|d|w)`. -/
def durationBody (cs : List Char) : Bool :=
  cs == ['-', '1'] || cs == ['0'] || numWithUnit cs

/-- Python `re.match(r"^(-1|0|(-?\d+(\.\d+)?)(ms|s|m|h|d|w))$", s)` as a
Boolean: the body matches the whole string, or the whole string up to a single
trailing newline (Python `$` semantics without re.MULTILINE). -/
def duration_pattern_match (s : String) : Bool :=
  durationBody s.data ||
    (match s.data.getLast? with
     | some c => c == '\n' && durationBody s.data.dropLast
     | none => false)

/-- The update_token_expires_duration handler (lines 322-335): store the new
duration when it matches the pattern, keep the old one otherwise; either way
return the configuration value now in effect. -/
def update_token_expires_duration (st : AppState)
    (fd : UpdateJWTExpiresDurationForm) : String × AppState :=
  if duration_pattern_match fd.duration then
    (fd.duration, { st with JWT_EXPIRES_IN := fd.duration })
  else
    (st.JWT_EXPIRES_IN, st)

/-- The create_api_key_ handler (lines 344-353).  `api_key` abstracts the
random key produced by utils.utils.create_api_key (not under src; the spec
says it generates a fresh random key). -/
def create_api_key_ (st : AppState) (user : User) (api_key : String) :
    Except AuthErr String × AppState :=
  let upd := update_user_api_key_by_id st.users user.id (some api_key)
  if upd.1 then
    (Except.ok api_key, { st with users := upd.2 })
  else
    (Except.error AuthErr.CREATE_API_KEY_ERROR, { st with users := upd.2 })

/-- The delete_api_key handler (lines 357-360): clear the key, return the
store's success flag. -/
def delete_api_key (st : AppState) (user : User) :
    Except AuthErr Bool × AppState :=
  let upd := update_user_api_key_by_id st.users user.id none
  (Except.ok upd.1, { st with users := upd.2 })

/-- The get_api_key handler (lines 364-372).  Python truthiness on the looked
up key: a missing user, an unset key and an empty-string key all yield
API_KEY_NOT_FOUND. -/
def get_api_key (st : AppState) (user : User) : Except AuthErr String :=
  match get_user_api_key_by_id st.users user.id with
  | some k => if truthyStr k then Except.ok k else Except.error AuthErr.API_KEY_NOT_FOUND
  | none => Except.error AuthErr.API_KEY_NOT_FOUND

/-- The signin_callback handler (lines 396-452).  The federated identity
obtained from sso.verify_and_process is abstracted as its email `sso_email`
and display name `sso_name`; `ssoJson` is the serialized identity payload
json.dumps(sso_user.__dict__); `randPw` the random uuid password.  If no local
user exists for the lowercased federated email, the handler runs signup (with
extra_sso = the payload), re-reads the user by trusted-header lookup, and then
recomputes the role as "admin" when the store count is 0 AFTER the insert,
else "user", persisting it.  For an existing user only extra_sso is updated.
Any exception inside the try block (including an HTTPException raised by
signup) is caught and reported as the generic callback error; state changes
already made persist. -/
def signin_callback (emailValid : String → Bool) (hash : String → String)
    (st : AppState) (sso_email sso_name ssoJson randPw : String) :
    Except AuthErr SigninResponse × AppState :=
  match get_user_by_email st.users (strLower sso_email) with
  | none =>
    let s := signup emailValid hash true st
      { email := sso_email, password := randPw, name := sso_name,
        profile_image_url := "/user.png", extra_sso := some ssoJson }
    match s.1 with
    | Except.error _ => (Except.error AuthErr.SSO_CALLBACK_ERROR, s.2)
    | Except.ok _ =>
      match authenticate_user_by_trusted_header s.2.users (strLower sso_email) with
      | none => (Except.error AuthErr.SSO_CALLBACK_ERROR, s.2)
      | some u0 =>
        let role := if get_num_users s.2.users = 0 then "admin" else "user"
        let upd := update_user_role_by_id s.2.users u0.id role
        let st2 := { s.2 with users := upd.2 }
        match upd.1 with
        | none => (Except.error AuthErr.SSO_CALLBACK_ERROR, st2)
        | some user =>
          (Except.ok
            { token := create_token user.id, token_type := "Bearer",
              id := user.id, email := user.email, name := user.name,
              role := user.role, profile_image_url := user.profile_image_url,
              extra_sso := user.extra_sso }, st2)
  | some u =>
    let upd := update_user_extra_sso_by_id st.users u.id ssoJson
    let st2 := { st with users := upd.2 }
    match upd.1 with
    | none => (Except.error AuthErr.SSO_CALLBACK_ERROR, st2)
    | some user =>
      (Except.ok
        { token := create_token user.id, token_type := "Bearer",
          id := user.id, email := user.email, name := user.name,
          role := user.role, profile_image_url := user.profile_image_url,
          extra_sso := user.extra_sso }, st2)

/-! Concrete fixtures used by witnesses and counterexamples. -/

/-- An email-format validator accepting everything: a concrete stand-in for
validate_email_format in concrete runs (its own definition lives outside the
provided sources and no claim depends on which emails it accepts). -/
def evAll : String → Bool := fun _ => true

/-- A concrete injective stand-in for the one-way password hasher. -/
def hashT : String → String := fun s => s ++ "#h"

/-- Base state: empty store, signup enabled, default role "pending", no
trusted header, no webhook. -/
def st0 : AppState :=
  { users := [], ENABLE_SIGNUP := true, DEFAULT_USER_ROLE := "pending",
    JWT_EXPIRES_IN := "-1", WEBHOOK_URL := "",
    WEBUI_AUTH_TRUSTED_EMAIL_HEADER := none }

/-- A concrete stored user (as the store would hold it after a first signup
with password "pw" hashed by `hashT`). -/
def aliceUser : User :=
  { id := "id-0", email := "alice@example.com", password_hash := "pw#h",
    name := "Alice", role := "admin", profile_image_url := "/user.png",
    extra_sso := none, api_key := none }

/-- A state whose store already holds one user. -/
def st1 : AppState := { st0 with users := [aliceUser] }

/-- `st1` with trusted-header mode active. -/
def st1trusted : AppState :=
  { st1 with WEBUI_AUTH_TRUSTED_EMAIL_HEADER := some "X-User-Email" }

/-- `st1` with signup administratively disabled. -/
def st1disabled : AppState := { st1 with ENABLE_SIGNUP := false }

/-- `st1` with the configured default role set to "admin" (the
update_default_user_role endpoint accepts exactly "pending", "user" and
"admin", so this configuration is reachable). -/
def st1defAdmin : AppState := { st1 with DEFAULT_USER_ROLE := "admin" }

/-! Helper lemmas about the store operations. -/

/-- find?-by-id commutes with mapping an id-preserving function over the
table. -/
theorem find_map_of_id_preserving (l : List User) (i : String)
    (f : User → User) (hf : ∀ u, (f u).id = u.id) :
    (l.map f).find? (fun v => v.id == i) =
      (l.find? (fun v => v.id == i)).map f := by
  induction l with
  | nil => rfl
  | cons a t ih =>
    by_cases h : a.id = i
    · rw [List.map_cons, List.find?_cons_of_pos, List.find?_cons_of_pos] <;>
        simp [hf, h]
    · rw [List.map_cons, List.find?_cons_of_neg, List.find?_cons_of_neg, ih] <;>
        simp [hf, h]

/-- Authenticating against a table extended with a fresh user whose email was
not previously present succeeds for that user's email and password. -/
theorem authenticate_user_append (hash : String → String) (users : List User)
    (u : User) (e pw : String)
    (hnone : get_user_by_email users e = none)
    (he : u.email = e) (hpw : u.password_hash = hash pw) :
    authenticate_user hash (users ++ [u]) e pw = some u := by
  unfold authenticate_user get_user_by_email at *
  rw [List.find?_append, hnone]
  simp [he, hpw]

/-- Shape of a successful signup: the email was free, and the resulting state
is the input state with exactly the freshly inserted record appended (every
configuration field unchanged). -/
theorem signup_ok_state (emailValid : String → Bool) (hash : String → String)
    (wh : Bool) (st : AppState) (fd : SignupForm)
    (hok : (signup emailValid hash wh st fd).1.isOk = true) :
    get_user_by_email st.users (strLower fd.email) = none
    ∧ (signup emailValid hash wh st fd).2 =
      { st with users := st.users ++
          [(insert_new_auth st.users (strLower fd.email) (hash fd.password)
            fd.name fd.profile_image_url fd.extra_sso
            (if get_num_users st.users = 0 then "admin"
             else st.DEFAULT_USER_ROLE)).1] } := by
  unfold signup at hok ⊢
  split at hok
  next h1 => simp [Except.isOk, Except.toBool] at hok
  next h1 =>
    split at hok
    next h2 => simp [Except.isOk, Except.toBool] at hok
    next h2 =>
      split at hok
      next h3 => simp [Except.isOk, Except.toBool] at hok
      next h3 =>
        refine ⟨Option.not_isSome_iff_eq_none.mp h3, ?_⟩
        rw [if_neg h1, if_neg h2, if_neg h3]
        rfl

example : duration_pattern_match "2w" = true := by decide
example : duration_pattern_match "-1" = true := by decide
example : duration_pattern_match "0" = true := by decide
example : duration_pattern_match "abc" = false := by decide
example : duration_pattern_match "0.5ms" = true := by decide
example : duration_pattern_match "-3.25h" = true := by decide
example : duration_pattern_match "1.s" = false := by decide
example : duration_pattern_match "5x" = false := by decide
example : duration_pattern_match "" = false := by decide

/-- C4: email handling is case-insensitive across signup and signin: whenever
a signup with some email succeeds, a subsequent signin (password branch, i.e.
trusted-header mode not active) with any other casing of the same email —
any `e2` with the same lowercasing — and the same password succeeds, because
both handlers lowercase the email before store access. -/
theorem C4_signup_signin_case_insensitive (emailValid : String → Bool)
    (hash : String → String) (wh : Bool) (st : AppState) (fd : SignupForm)
    (e2 : String) (hcase : strLower fd.email = strLower e2)
    (hnt : truthyOptStr st.WEBUI_AUTH_TRUSTED_EMAIL_HEADER = false)
    (hok : (signup emailValid hash wh st fd).1.isOk = true) :
    (signin emailValid hash "" (signup emailValid hash wh st fd).2 []
      { email := e2, password := fd.password }).1.isOk = true := by
  obtain ⟨hnone, hst2⟩ := signup_ok_state emailValid hash wh st fd hok
  unfold signin
  rw [hst2]
  rw [if_neg (by simp [hnt])]
  dsimp only
  rw [← hcase, authenticate_user_append hash st.users _ _ fd.password hnone
    rfl rfl]
  simp [Except.isOk, Except.toBool]

/-- Witness for C4: sign up "Foo@Bar.com", sign in as "foo@bar.com" with the
same password. -/
theorem C4_signup_signin_case_insensitive_witness :
    strLower (SignupForm.email
        { email := "Foo@Bar.com", password := "pw", name := "Foo" }) =
      strLower "foo@bar.com"
    ∧ truthyOptStr st0.WEBUI_AUTH_TRUSTED_EMAIL_HEADER = false
    ∧ (signup evAll hashT true st0
        { email := "Foo@Bar.com", password := "pw", name := "Foo" }).1.isOk = true
    ∧ (signin evAll hashT "" (signup evAll hashT true st0
        { email := "Foo@Bar.com", password := "pw", name := "Foo" }).2 []
        { email := "foo@bar.com", password := "pw" }).1.isOk = true :=
  ⟨by decide, by decide, by decide,
   C4_signup_signin_case_insensitive evAll hashT true st0
     { email := "Foo@Bar.com", password := "pw", name := "Foo" } "foo@bar.com"
     (by decide) (by decide) (by decide)⟩

/-- C5: whenever trusted-header authentication mode is active (the
trusted-email header name is configured, i.e. truthy), update_password fails
with ACTION_PROHIBITED regardless of the session user and the credentials
supplied, and the state — in particular every stored password hash — is
unchanged. -/
theorem C5_update_password_trusted_header (hash : String → String)
    (st : AppState) (su : Option User) (fd : UpdatePasswordForm)
    (h : truthyOptStr st.WEBUI_AUTH_TRUSTED_EMAIL_HEADER = true) :
    update_password hash st su fd = (Except.error AuthErr.ACTION_PROHIBITED, st) := by
  unfold update_password
  simp [h]

/-- Witness for C5 at a concrete trusted-header state. -/
theorem C5_update_password_trusted_header_witness :
    truthyOptStr st1trusted.WEBUI_AUTH_TRUSTED_EMAIL_HEADER = true ∧
    update_password hashT st1trusted (some aliceUser)
      { password := "pw", new_password := "npw" } =
      (Except.error AuthErr.ACTION_PROHIBITED, st1trusted) :=
  ⟨rfl, C5_update_password_trusted_header hashT st1trusted (some aliceUser)
    { password := "pw", new_password := "npw" } rfl⟩

/-- C6: a token-expiry update stores the requested duration exactly when it
matches the pattern (otherwise the prior value is retained), always returns
the configuration value in effect after the call, never touches the user
table, and on the concrete inputs: "2w", "-1", "0" are accepted while "abc"
is not. -/
theorem C6_token_expiry_update (st : AppState)
    (fd : UpdateJWTExpiresDurationForm) :
    (update_token_expires_duration st fd).2.JWT_EXPIRES_IN =
      (if duration_pattern_match fd.duration then fd.duration
       else st.JWT_EXPIRES_IN)
    ∧ (update_token_expires_duration st fd).1 =
      (update_token_expires_duration st fd).2.JWT_EXPIRES_IN
    ∧ (update_token_expires_duration st fd).2.users = st.users
    ∧ duration_pattern_match "2w" = true
    ∧ duration_pattern_match "-1" = true
    ∧ duration_pattern_match "0" = true
    ∧ duration_pattern_match "abc" = false := by
  refine ⟨?_, ?_, ?_, by decide, by decide, by decide, by decide⟩ <;>
    (unfold update_token_expires_duration; split <;> rfl)

/-- C7: SSO callback for a federated email that already has a local user: the
call succeeds and the final state is the input state with exactly that user's
extra_sso overwritten by the serialized payload — every other field of that
record, every other record, and every configuration field are unchanged. -/
theorem C7_sso_existing_user_frame (emailValid : String → Bool)
    (hash : String → String) (st : AppState)
    (sso_email sso_name ssoJson randPw : String) (u : User)
    (hfound : get_user_by_email st.users (strLower sso_email) = some u) :
    (signin_callback emailValid hash st sso_email sso_name ssoJson randPw).2 =
      { st with users := st.users.map (fun v =>
          if v.id = u.id then { v with extra_sso := some ssoJson } else v) }
    ∧ (signin_callback emailValid hash st sso_email sso_name ssoJson
        randPw).1.isOk = true := by
  have hmem : u ∈ st.users := List.mem_of_find?_eq_some hfound
  have hid : (get_user_by_id st.users u.id).isSome = true := by
    unfold get_user_by_id
    exact List.find?_isSome.mpr ⟨u, hmem, by simp⟩
  obtain ⟨w, hw⟩ := Option.isSome_iff_exists.mp hid
  have hmap := find_map_of_id_preserving st.users u.id
    (fun v => if v.id = u.id then { v with extra_sso := some ssoJson } else v)
    (fun v => by by_cases h : v.id = u.id <;> simp [h])
  unfold signin_callback update_user_extra_sso_by_id
  rw [hfound]
  unfold get_user_by_id at hmap hw
  dsimp only
  unfold get_user_by_id
  rw [hmap, hw]
  exact ⟨rfl, rfl⟩

/-- Witness for C7: callback for the stored user's email under a different
casing. -/
theorem C7_sso_existing_user_frame_witness :
    get_user_by_email st1.users (strLower "Alice@Example.com") = some aliceUser
    ∧ (signin_callback evAll hashT st1 "Alice@Example.com" "Alice" "newpayload"
        "pw").2 =
      { st1 with users := st1.users.map (fun v =>
          if v.id = aliceUser.id then { v with extra_sso := some "newpayload" }
          else v) }
    ∧ (signin_callback evAll hashT st1 "Alice@Example.com" "Alice" "newpayload"
        "pw").1.isOk = true :=
  ⟨by decide,
   (C7_sso_existing_user_frame evAll hashT st1 "Alice@Example.com" "Alice"
     "newpayload" "pw" aliceUser (by decide)).1,
   (C7_sso_existing_user_frame evAll hashT st1 "Alice@Example.com" "Alice"
     "newpayload" "pw" aliceUser (by decide)).2⟩

/-- C8: API-key lifecycle for a stored user: creating a key (the generated
keys are non-empty) returns it and an immediate get returns that same key;
after a delete, get fails with API_KEY_NOT_FOUND. -/
theorem C8_api_key_lifecycle (st : AppState) (u : User) (k : String)
    (hk : truthyStr k = true)
    (hmem : (get_user_by_id st.users u.id).isSome = true) :
    (create_api_key_ st u k).1 = Except.ok k
    ∧ get_api_key (create_api_key_ st u k).2 u = Except.ok k
    ∧ get_api_key (delete_api_key st u).2 u =
        Except.error AuthErr.API_KEY_NOT_FOUND := by
  obtain ⟨w, hw⟩ := Option.isSome_iff_exists.mp hmem
  have hwid : w.id = u.id := by
    have := List.find?_some (p := fun v => v.id == u.id) (l := st.users)
      (by unfold get_user_by_id at hw; exact hw)
    simpa using this
  have hset := find_map_of_id_preserving st.users u.id
    (fun v => if v.id = u.id then { v with api_key := some k } else v)
    (fun v => by by_cases h : v.id = u.id <;> simp [h])
  have hclr := find_map_of_id_preserving st.users u.id
    (fun v => if v.id = u.id then { v with api_key := none } else v)
    (fun v => by by_cases h : v.id = u.id <;> simp [h])
  unfold create_api_key_ delete_api_key get_api_key get_user_api_key_by_id
    update_user_api_key_by_id
  unfold get_user_by_id at hmem hset hclr hw ⊢
  refine ⟨?_, ?_, ?_⟩
  · rw [if_pos hmem]
  · rw [if_pos hmem]
    try dsimp only
    rw [hset, hw]
    simp [hwid, hk]
  · try dsimp only
    rw [hclr, hw]
    simp [hwid]

/-- Witness for C8 at a concrete one-user store. -/
theorem C8_api_key_lifecycle_witness :
    truthyStr "sk-123" = true
    ∧ (get_user_by_id st1.users aliceUser.id).isSome = true
    ∧ (create_api_key_ st1 aliceUser "sk-123").1 = Except.ok "sk-123"
    ∧ get_api_key (create_api_key_ st1 aliceUser "sk-123").2 aliceUser =
        Except.ok "sk-123"
    ∧ get_api_key (delete_api_key st1 aliceUser).2 aliceUser =
        Except.error AuthErr.API_KEY_NOT_FOUND :=
  ⟨by decide, by decide,
   (C8_api_key_lifecycle st1 aliceUser "sk-123" (by decide) (by decide)).1,
   (C8_api_key_lifecycle st1 aliceUser "sk-123" (by decide) (by decide)).2.1,
   (C8_api_key_lifecycle st1 aliceUser "sk-123" (by decide) (by decide)).2.2⟩

/-- C9: the outcome of webhook delivery has no effect whatsoever on signup
(post_webhook is modelled from the spec as best-effort delivery that never
raises, utils/webhook.py not being under src): the handler's result and final
state coincide for failed and successful delivery, and a successful signup has
its user record present in the final store either way. -/
theorem C9_signup_webhook_failure_no_abort (emailValid : String → Bool)
    (hash : String → String) (st : AppState) (fd : SignupForm) :
    signup emailValid hash false st fd = signup emailValid hash true st fd
    ∧ ((signup emailValid hash false st fd).1.isOk = true →
        (get_user_by_email (signup emailValid hash false st fd).2.users
          (strLower fd.email)).isSome = true) := by
  constructor
  · rfl
  · intro hok
    obtain ⟨hnone, hst2⟩ := signup_ok_state emailValid hash false st fd hok
    rw [hst2]
    dsimp only
    unfold get_user_by_email at hnone ⊢
    rw [List.find?_append, hnone]
    simp [insert_new_auth]

/-- Witness for C9: a concrete signup (with a configured webhook URL) whose
result is identical under failed delivery, with the record created. -/
theorem C9_signup_webhook_failure_no_abort_witness :
    signup evAll hashT false { st0 with WEBHOOK_URL := "http://wh" }
        { email := "carol@example.com", password := "pw", name := "Carol" } =
      signup evAll hashT true { st0 with WEBHOOK_URL := "http://wh" }
        { email := "carol@example.com", password := "pw", name := "Carol" }
    ∧ (get_user_by_email
        (signup evAll hashT false { st0 with WEBHOOK_URL := "http://wh" }
          { email := "carol@example.com", password := "pw",
            name := "Carol" }).2.users
        (strLower (SignupForm.email
          { email := "carol@example.com", password := "pw",
            name := "Carol" }))).isSome = true :=
  ⟨(C9_signup_webhook_failure_no_abort evAll hashT
      { st0 with WEBHOOK_URL := "http://wh" }
      { email := "carol@example.com", password := "pw", name := "Carol" }).1,
   (C9_signup_webhook_failure_no_abort evAll hashT
      { st0 with WEBHOOK_URL := "http://wh" }
      { email := "carol@example.com", password := "pw", name := "Carol" }).2
     (by decide)⟩

/-- C10: every successful signin, signup and add_user call returns a session
payload whose extra_sso field is the empty string, whatever extra_sso value is
stored on the user record (only the SSO callback echoes the stored value). -/
theorem C10_session_payload_extra_sso_empty (emailValid : String → Bool)
    (hash : String → String) (randPw : String)
    (headers : List (String × String)) (wh : Bool) (st : AppState)
    (sf : SigninForm) (uf : SignupForm) (af : AddUserForm) :
    ((signin emailValid hash randPw st headers sf).1.isOk = true →
      (signin emailValid hash randPw st headers sf).1.map
        SigninResponse.extra_sso = Except.ok (some ""))
    ∧ ((signup emailValid hash wh st uf).1.isOk = true →
      (signup emailValid hash wh st uf).1.map
        SigninResponse.extra_sso = Except.ok (some ""))
    ∧ ((add_user emailValid hash st af).1.isOk = true →
      (add_user emailValid hash st af).1.map
        SigninResponse.extra_sso = Except.ok (some "")) := by
  refine ⟨?_, ?_, ?_⟩
  · unfold signin
    dsimp only
    repeat' split
    all_goals simp [Except.isOk, Except.toBool, Except.map]
  · unfold signup
    dsimp only
    repeat' split
    all_goals simp [Except.isOk, Except.toBool, Except.map]
  · unfold add_user
    dsimp only
    repeat' split
    all_goals simp [Except.isOk, Except.toBool, Except.map]

/-- Witness for C10: a concrete successful signin (stored user has a non-empty
extra_sso), signup and add_user, each returning extra_sso = "". -/
theorem C10_session_payload_extra_sso_empty_witness :
    ((signin evAll hashT "rp"
        { st1 with users := [{ aliceUser with extra_sso := some "blob" }] } []
        { email := "alice@example.com", password := "pw" }).1.isOk = true)
    ∧ (signin evAll hashT "rp"
        { st1 with users := [{ aliceUser with extra_sso := some "blob" }] } []
        { email := "alice@example.com", password := "pw" }).1.map
          SigninResponse.extra_sso = Except.ok (some "")
    ∧ ((signup evAll hashT true st1
        { email := "bob@example.com", password := "pw", name := "Bob",
          extra_sso := some "blob2" }).1.isOk = true)
    ∧ (signup evAll hashT true st1
        { email := "bob@example.com", password := "pw", name := "Bob",
          extra_sso := some "blob2" }).1.map
          SigninResponse.extra_sso = Except.ok (some "")
    ∧ ((add_user evAll hashT st1
        { email := "carol@example.com", password := "pw", name := "Carol",
          role := "user" }).1.isOk = true)
    ∧ (add_user evAll hashT st1
        { email := "carol@example.com", password := "pw", name := "Carol",
          role := "user" }).1.map
          SigninResponse.extra_sso = Except.ok (some "") :=
  ⟨by decide,
   (C10_session_payload_extra_sso_empty evAll hashT "rp" [] true
      { st1 with users := [{ aliceUser with extra_sso := some "blob" }] }
      { email := "alice@example.com", password := "pw" }
      { email := "bob@example.com", password := "pw", name := "Bob",
        extra_sso := some "blob2" }
      { email := "carol@example.com", password := "pw", name := "Carol",
        role := "user" }).1 (by decide),
   by decide,
   (C10_session_payload_extra_sso_empty evAll hashT "rp" [] true st1
      { email := "alice@example.com", password := "pw" }
      { email := "bob@example.com", password := "pw", name := "Bob",
        extra_sso := some "blob2" }
      { email := "carol@example.com", password := "pw", name := "Carol",
        role := "user" }).2.1 (by decide),
   by decide,
   (C10_session_payload_extra_sso_empty evAll hashT "rp" [] true st1
      { email := "alice@example.com", password := "pw" }
      { email := "bob@example.com", password := "pw", name := "Bob",
        extra_sso := some "blob2" }
      { email := "carol@example.com", password := "pw", name := "Carol",
        role := "user" }).2.2 (by decide)⟩

/-- C1: evaluating the SSO callback on an empty store for a federated email
with no local user.  The claim says the persisted role is "admin"; the code
persists "user", because the role recompute in signin_callback reads the store
count only after signup has inserted the user (the count is then 1, never 0,
so the "admin" arm of the recompute is unreachable and the post-signup update
demotes the freshly created first admin to "user"). -/
theorem C1_first_sso_user_persisted_role :
    ((signin_callback evAll hashT st0 "alice@example.com" "Alice" "ssopayload"
        "pw").1.map SigninResponse.role = Except.ok "user")
    ∧ (signin_callback evAll hashT st0 "alice@example.com" "Alice" "ssopayload"
        "pw").2.users.map User.role = ["user"] := by
  exact ⟨by decide, by decide⟩

/-- C2 counterexample: with one user already stored and the configured default
role set to "admin" (a reachable configuration: update_default_user_role
accepts "admin"), a fresh signup is created with role "admin" although the
store was not empty before the call — refuting "role equals admin if and only
if the store contained zero users". -/
theorem C2_counterexample :
    ((signup evAll hashT true st1defAdmin
        { email := "bob@example.com", password := "pw", name := "Bob" }).1.map
      SigninResponse.role = Except.ok "admin")
    ∧ get_num_users st1defAdmin.users = 1 := ⟨by decide, by decide⟩

/-- C2 amended: every successful signup creates its user with role "admin"
when the store contained zero users before the call, and with the configured
default role otherwise (so "admin" arises iff the store was empty or the
configured default role is itself "admin"); the role is both returned and
persisted. -/
theorem C2_signup_role_policy (emailValid : String → Bool)
    (hash : String → String) (wh : Bool) (st : AppState) (fd : SignupForm)
    (hok : (signup emailValid hash wh st fd).1.isOk = true) :
    (signup emailValid hash wh st fd).1.map SigninResponse.role =
      Except.ok (if get_num_users st.users = 0 then "admin"
                 else st.DEFAULT_USER_ROLE)
    ∧ (signup emailValid hash wh st fd).2.users.map User.role =
      st.users.map User.role ++
        [if get_num_users st.users = 0 then "admin"
         else st.DEFAULT_USER_ROLE] := by
  unfold signup at hok ⊢
  split at hok
  next h1 => simp [Except.isOk, Except.toBool] at hok
  next h1 =>
    split at hok
    next h2 => simp [Except.isOk, Except.toBool] at hok
    next h2 =>
      split at hok
      next h3 => simp [Except.isOk, Except.toBool] at hok
      next h3 =>
        rw [if_neg h1, if_neg h2, if_neg h3]
        refine ⟨rfl, ?_⟩
        simp [insert_new_auth]

/-- Witness for C2 amended: a successful signup into a one-user store with
default role "pending". -/
theorem C2_signup_role_policy_witness :
    ((signup evAll hashT true st1
        { email := "bob@example.com", password := "pw", name := "Bob" }).1.isOk
      = true)
    ∧ (signup evAll hashT true st1
        { email := "bob@example.com", password := "pw", name := "Bob" }).1.map
          SigninResponse.role =
        Except.ok (if get_num_users st1.users = 0 then "admin"
                   else st1.DEFAULT_USER_ROLE)
    ∧ (signup evAll hashT true st1
        { email := "bob@example.com", password := "pw", name := "Bob" }).2.users.map
          User.role =
        st1.users.map User.role ++
          [if get_num_users st1.users = 0 then "admin"
           else st1.DEFAULT_USER_ROLE] :=
  ⟨by decide,
   (C2_signup_role_policy evAll hashT true st1
     { email := "bob@example.com", password := "pw", name := "Bob" } (by decide)).1,
   (C2_signup_role_policy evAll hashT true st1
     { email := "bob@example.com", password := "pw", name := "Bob" } (by decide)).2⟩

/-- C3 counterexample: when signup is administratively disabled, a signup call
with an already-registered email fails with ACCESS_PROHIBITED (SignupDisabled),
not EMAIL_TAKEN — the disabled check precedes the duplicate check — refuting
"always fails with the EmailTaken error". -/
theorem C3_counterexample :
    (get_user_by_email st1disabled.users "alice@example.com").isSome = true
    ∧ (signup evAll hashT true st1disabled
        { email := "Alice@Example.com", password := "x", name := "A" }).1 =
      Except.error AuthErr.ACCESS_PROHIBITED := ⟨by decide, by decide⟩

/-- C3 amended: a signup call whose (lowercased) email is already registered
never changes the store — no second record is ever created — and, provided
signup is enabled and the email passes format validation (the two checks the
handler runs first), it fails with EMAIL_TAKEN. -/
theorem C3_signup_email_taken (emailValid : String → Bool)
    (hash : String → String) (wh : Bool) (st : AppState) (fd : SignupForm)
    (h : (get_user_by_email st.users (strLower fd.email)).isSome = true) :
    (signup emailValid hash wh st fd).2 = st
    ∧ (st.ENABLE_SIGNUP = true → emailValid (strLower fd.email) = true →
        (signup emailValid hash wh st fd).1 =
          Except.error AuthErr.EMAIL_TAKEN) := by
  unfold signup
  constructor
  · split
    · rfl
    · split
      · rfl
      · rfl
  · intro h1 h2
    rw [if_neg (by simp [h1]), if_neg (by simp [h2]), if_pos h]

/-- Witness for C3 amended: signup enabled, email format accepted, email
already registered under a different casing. -/
theorem C3_signup_email_taken_witness :
    ((get_user_by_email st1.users
        (strLower (SignupForm.email
          { email := "Alice@Example.com", password := "x", name := "A" }))).isSome
      = true)
    ∧ (signup evAll hashT true st1
        { email := "Alice@Example.com", password := "x", name := "A" }).2 = st1
    ∧ (signup evAll hashT true st1
        { email := "Alice@Example.com", password := "x", name := "A" }).1 =
      Except.error AuthErr.EMAIL_TAKEN :=
  ⟨by decide,
   (C3_signup_email_taken evAll hashT true st1
     { email := "Alice@Example.com", password := "x", name := "A" } (by decide)).1,
   (C3_signup_email_taken evAll hashT true st1
     { email := "Alice@Example.com", password := "x", name := "A" } (by decide)).2
     (by decide) (by decide)⟩
